import Mathlib

set_option maxHeartbeats 1000000

/- Verification development for the telenurse assessment backend: the data
model (Message, SymptomRating, Assessment, SessionState), the session
lifecycle operations, the symptom-extraction validator, the notification
policy and the assessment repository, together with the results viewer
logic of telenurse/static/script.js. -/

/-- Conversational role of a transcript message. -/
inductive Role
  | patient
  | interviewer
deriving DecidableEq, Repr

/-- Modelled from the spec: one immutable transcript message. -/
structure Message where
  role : Role
  content : String
deriving DecidableEq, Repr

/-- Modelled from the spec: one per-symptom rating produced by the
SymptomExtractor. Severity is 1..5; frequency is 1..5 or absent (fatigue
and appetite have no frequency axis); location is only meaningful for
discomfort. -/
structure SymptomRating where
  symptom_name : String
  severity : Nat
  frequency : Option Nat
  key_indicators : List String
  additional_notes : Option String
  location : Option String
deriving DecidableEq, Repr

/-- Clinical escalation tier computed by NotificationPolicy. -/
inductive NotificationLevel
  | none
  | amber
  | red
deriving DecidableEq, Repr

/-- Modelled from the spec: a rating qualifies for red when severity is at
least 4, or its frequency is present and at least 4. -/
def ratingTriggersRed (r : SymptomRating) : Bool :=
  decide (4 ≤ r.severity) ||
    (match r.frequency with
     | some f => decide (4 ≤ f)
     | none => false)

/-- Modelled from the spec: a rating qualifies for amber when severity is
exactly 3 and the frequency is absent or exactly 3. -/
def ratingTriggersAmber (r : SymptomRating) : Bool :=
  decide (r.severity = 3) &&
    (match r.frequency with
     | some f => decide (f = 3)
     | none => true)

/-- Modelled from the spec: NotificationPolicy's escalation rule. Red if
any symptom qualifies for red; amber if none does and some symptom
qualifies for amber; none otherwise. -/
def notificationLevel (symptoms : List (String × SymptomRating)) : NotificationLevel :=
  if symptoms.any (fun p => ratingTriggersRed p.2) then .red
  else if symptoms.any (fun p => ratingTriggersAmber p.2) then .amber
  else .none

/-- Modelled from the spec: flag_for_oncologist is true iff the level is
amber or red. -/
def flagForOncologist (symptoms : List (String × SymptomRating)) : Bool :=
  match notificationLevel symptoms with
  | .none => false
  | .amber => true
  | .red => true

/-- Modelled from the spec: flag_reason is a deterministic summary naming
the triggering symptoms, absent when the level is none. -/
def flagReason (symptoms : List (String × SymptomRating)) : Option String :=
  match notificationLevel symptoms with
  | .none => Option.none
  | _ => some (String.intercalate ", "
      ((symptoms.filter
          (fun p => ratingTriggersRed p.2 || ratingTriggersAmber p.2)).map
        (fun p => p.1)))

/-- Modelled from the spec: the completed Assessment entity assembled at
session-finish time, with exactly the fields of the data model. -/
structure Assessment where
  patient_id : String
  timestamp : Nat
  language : String
  input_mode : String
  symptoms : List (String × SymptomRating)
  mood_assessment : Option String
  conversation_notes : Option String
  flag_for_oncologist : Bool
  flag_reason : Option String
  oncologist_notification_level : NotificationLevel
deriving DecidableEq, Repr

/-- Session lifecycle status. -/
inductive LifecycleStatus
  | notStarted
  | active
  | finished
  | cancelled
deriving DecidableEq, Repr

/-- Modelled from the spec: the process-wide SessionState singleton. -/
structure SessionState where
  status : LifecycleStatus
  patient_id : String
  language : String
  input_mode : String
  transcript : List Message
  assessment : Option Assessment
deriving DecidableEq, Repr

/-- Error taxonomy of the core operations. -/
inductive SessionError
  | invalidState
  | invalidInput
  | gatewayError
  | extractionError
  | ioConflict
  | notFound
deriving DecidableEq, Repr

/-- The empty NotStarted session snapshot. -/
def emptySession : SessionState :=
  { status := .notStarted, patient_id := "", language := "en",
    input_mode := "keyboard", transcript := [], assessment := Option.none }

/-- Modelled from the spec: SessionManager.start. Fails with InvalidState
if a session is already Active; else creates an Active session whose
transcript holds exactly the one opening interviewer message (the reply
the gateway returned for the seeding call). -/
def start (st : SessionState) (pid lang mode opening : String) :
    Except SessionError SessionState :=
  if st.status = .active then .error .invalidState
  else .ok { status := .active, patient_id := pid, language := lang,
             input_mode := mode,
             transcript := [{ role := .interviewer, content := opening }],
             assessment := Option.none }

/-- The session state that results from a start call: on failure the prior
state is kept unchanged. -/
def applyStart (st : SessionState) (pid lang mode opening : String) : SessionState :=
  match start st pid lang mode opening with
  | .ok st2 => st2
  | .error _ => st

/-- Modelled from the spec: a text is empty after trimming whitespace
exactly when every one of its characters is whitespace. -/
def blankAfterTrim (s : String) : Bool :=
  s.data.all Char.isWhitespace

/-- Modelled from the spec: SessionManager.sendMessage. Fails with
InvalidState if no Active session, with InvalidInput if the text is empty
after trimming; otherwise appends the patient message and the interviewer
reply, in that order. -/
def sendMessage (st : SessionState) (text reply : String) :
    Except SessionError SessionState :=
  if st.status ≠ .active then .error .invalidState
  else if blankAfterTrim text then .error .invalidInput
  else .ok { st with transcript := st.transcript ++
      [{ role := .patient, content := text },
       { role := .interviewer, content := reply }] }

/-- The session state that results from a sendMessage call: on failure the
prior state is kept unchanged. -/
def applySend (st : SessionState) (text reply : String) : SessionState :=
  match sendMessage st text reply with
  | .ok st2 => st2
  | .error _ => st

/-- Runs a sequence of sendMessage calls, each given its patient text and
the interviewer reply the gateway returned; stops at the first failure. -/
def runMessages (st : SessionState) :
    List (String × String) → Except SessionError SessionState
  | [] => .ok st
  | m :: rest =>
    match sendMessage st m.1 m.2 with
    | .ok st2 => runMessages st2 rest
    | .error e => .error e

/-- Modelled from the spec: SessionManager.cancel. Fails with InvalidState
if no Active session; otherwise discards the SessionState, transitioning
to Cancelled then immediately to NotStarted. The intermediate Cancelled
state is returned alongside the final state to make the transition
explicit. -/
def cancel (st : SessionState) :
    Except SessionError (SessionState × SessionState) :=
  if st.status ≠ .active then .error .invalidState
  else .ok ({ st with status := .cancelled }, emptySession)

/-- Modelled from the spec: the AssessmentRepository, a named-artifact
store listed most-recent-first. -/
structure AssessmentRepository where
  artifacts : List (String × Assessment)
deriving DecidableEq, Repr

/-- Modelled from the spec: the artifact name is derived deterministically
from patient_id and timestamp. -/
def artifactName (a : Assessment) : String :=
  a.patient_id ++ "_" ++ toString a.timestamp

/-- Modelled from the spec: save writes the Assessment under its derived
name, failing with IOConflict rather than overwriting silently. -/
def AssessmentRepository.save (repo : AssessmentRepository) (a : Assessment) :
    Except SessionError AssessmentRepository :=
  if repo.artifacts.any (fun p => p.1 == artifactName a) then .error .ioConflict
  else .ok { artifacts := (artifactName a, a) :: repo.artifacts }

/-- Modelled from the spec: list returns the stored artifact names,
most-recent-first. -/
def AssessmentRepository.listNames (repo : AssessmentRepository) : List String :=
  repo.artifacts.map (fun p => p.1)

/-- Modelled from the spec: get fails with NotFound when the name
corresponds to no stored artifact, else returns the stored Assessment. -/
def AssessmentRepository.fetch (repo : AssessmentRepository) (name : String) :
    Except SessionError Assessment :=
  match repo.artifacts.find? (fun p => p.1 == name) with
  | some p => .ok p.2
  | Option.none => .error .notFound

/-- The cancel operation at the manager level: the repository is passed
through untouched, since cancel never calls save. -/
def cancelOp (st : SessionState) (repo : AssessmentRepository) :
    Except SessionError (SessionState × AssessmentRepository) :=
  match cancel st with
  | .ok (_, final) => .ok (final, repo)
  | .error e => .error e

/-- Modelled from the spec: SessionManager.finish. Fails with InvalidState
if no Active session; otherwise assembles the Assessment from the
extracted ratings and the NotificationPolicy outputs, saves it in the
repository, and transitions to Finished exposing the Assessment. -/
def finish (st : SessionState) (repo : AssessmentRepository)
    (symptoms : List (String × SymptomRating)) (timestamp : Nat)
    (mood notes : Option String) :
    Except SessionError (SessionState × AssessmentRepository × Assessment) :=
  if st.status ≠ .active then .error .invalidState
  else
    let a : Assessment :=
      { patient_id := st.patient_id, timestamp := timestamp,
        language := st.language, input_mode := st.input_mode,
        symptoms := symptoms, mood_assessment := mood,
        conversation_notes := notes,
        flag_for_oncologist := flagForOncologist symptoms,
        flag_reason := flagReason symptoms,
        oncologist_notification_level := notificationLevel symptoms }
    match repo.save a with
    | .ok repo2 =>
        .ok ({ st with status := .finished, assessment := some a }, repo2, a)
    | .error e => .error e

/-- One numeric field of the raw structured-extraction output: absent,
an integer, or present but not an integer. -/
inductive RawField
  | absent
  | intField (n : Int)
  | nonIntField
deriving DecidableEq, Repr

/-- Modelled from the spec: one entry of the raw structured-extraction
response before validation; symptom_name may be missing. -/
structure RawRating where
  symptom_name : Option String
  severity : RawField
  frequency : RawField
  key_indicators : List String
  additional_notes : Option String
  location : Option String
deriving DecidableEq, Repr

/-- Modelled from the spec: the symptoms with no frequency axis are
fatigue and appetite. -/
def noFrequencyAxis (name : String) : Bool :=
  name == "fatigue" || name == "appetite"

/-- Modelled from the spec: discomfort reported at a location is keyed by
the composite identifier discomfort:location; other symptoms by their
name. -/
def ratingKey (name : String) (location : Option String) : String :=
  if name == "discomfort" then
    match location with
    | some loc => name ++ ":" ++ loc
    | Option.none => name
  else name

/-- Modelled from the spec: SymptomExtractor validation of one raw entry.
Rejects with ExtractionError a missing symptom name, a missing or
non-integer severity, an out-of-range severity, a non-integer frequency,
a frequency present for a symptom with no frequency axis, and an
out-of-range frequency. -/
def validateRating (r : RawRating) : Except SessionError (String × SymptomRating) :=
  match r.symptom_name with
  | Option.none => .error .extractionError
  | some name =>
    match r.severity with
    | .absent => .error .extractionError
    | .nonIntField => .error .extractionError
    | .intField s =>
      if s < 1 ∨ 5 < s then .error .extractionError
      else
        match r.frequency with
        | .nonIntField => .error .extractionError
        | .intField f =>
          if noFrequencyAxis name then .error .extractionError
          else if f < 1 ∨ 5 < f then .error .extractionError
          else .ok (ratingKey name r.location,
            { symptom_name := name, severity := s.toNat,
              frequency := some f.toNat,
              key_indicators := r.key_indicators,
              additional_notes := r.additional_notes,
              location := r.location })
        | .absent =>
          .ok (ratingKey name r.location,
            { symptom_name := name, severity := s.toNat,
              frequency := Option.none,
              key_indicators := r.key_indicators,
              additional_notes := r.additional_notes,
              location := r.location })

/-- A raw entry the validator must reject: missing symptom name, missing
or non-integer severity, out-of-range severity, non-integer frequency,
frequency present for a symptom with no frequency axis, or out-of-range
frequency. -/
def badRaw (r : RawRating) : Bool :=
  match r.symptom_name with
  | Option.none => true
  | some name =>
    match r.severity with
    | .absent => true
    | .nonIntField => true
    | .intField s =>
      decide (s < 1) || decide (5 < s) ||
        (match r.frequency with
         | .absent => false
         | .nonIntField => true
         | .intField f =>
             noFrequencyAxis name || decide (f < 1) || decide (5 < f))

/-- Modelled from the spec: SymptomExtractor parsing of the whole raw
response, failing as soon as one entry is invalid. -/
def extractRatings : List RawRating → Except SessionError (List (String × SymptomRating))
  | [] => .ok []
  | r :: rest =>
    match validateRating r with
    | .error e => .error e
    | .ok entry =>
      match extractRatings rest with
      | .error e => .error e
      | .ok entries => .ok (entry :: entries)

/-- A raw discomfort entry at a given body location. -/
def discomfortRaw (sev freq : Int) (loc : String) : RawRating :=
  { symptom_name := some "discomfort", severity := .intField sev,
    frequency := .intField freq, key_indicators := [],
    additional_notes := Option.none, location := some loc }

/-- A structured value of the persisted artifact format. -/
inductive JsonVal
  | jstr (s : String)
  | jnum (n : Int)
  | jbool (b : Bool)
  | jnull
  | jarr (xs : List JsonVal)
  | jobj (fields : List (String × JsonVal))

/-- An optional text field serialized as a string or null. -/
def optStr : Option String → JsonVal
  | some s => .jstr s
  | Option.none => .jnull

/-- The serialized name of a notification level. -/
def levelName : NotificationLevel → String
  | .none => "none"
  | .amber => "amber"
  | .red => "red"

/-- Modelled from the spec: one SymptomRating serialized into the stored
artifact, the frequency field omitted when absent. -/
def serializeRating (r : SymptomRating) : JsonVal :=
  .jobj ([("symptom_name", .jstr r.symptom_name),
          ("severity", .jnum (r.severity : Int))]
    ++ (match r.frequency with
        | some f => [("frequency", .jnum (f : Int))]
        | Option.none => [])
    ++ [("key_indicators", .jarr (r.key_indicators.map .jstr))]
    ++ (match r.additional_notes with
        | some s => [("additional_notes", .jstr s)]
        | Option.none => [])
    ++ (match r.location with
        | some s => [("location", .jstr s)]
        | Option.none => []))

/-- Modelled from the spec: the persisted artifact is a self-describing
record holding exactly the fields of the Assessment entity, under the
entity's field names. -/
def serializeAssessment (a : Assessment) : List (String × JsonVal) :=
  [("patient_id", .jstr a.patient_id),
   ("timestamp", .jnum (a.timestamp : Int)),
   ("language", .jstr a.language),
   ("input_mode", .jstr a.input_mode),
   ("symptoms", .jobj (a.symptoms.map (fun p => (p.1, serializeRating p.2)))),
   ("mood_assessment", optStr a.mood_assessment),
   ("conversation_notes", optStr a.conversation_notes),
   ("flag_for_oncologist", .jbool a.flag_for_oncologist),
   ("flag_reason", optStr a.flag_reason),
   ("oncologist_notification_level", .jstr (levelName a.oncologist_notification_level))]

/-- The field names of the Assessment entity of the data model, in the
order the entity lists them. -/
def assessmentFieldNames : List String :=
  ["patient_id", "timestamp", "language", "input_mode", "symptoms",
   "mood_assessment", "conversation_notes", "flag_for_oncologist",
   "flag_reason", "oncologist_notification_level"]

/-- The treatment-status line of displayAssessmentData in
telenurse/static/script.js: In Treatment exactly when the record's
treatment_status field equals undergoing_treatment, In Remission for any
other value and when the field is absent. -/
def treatmentStatusDisplay (treatment_status : Option String) : String :=
  if treatment_status == some "undergoing_treatment" then "In Treatment"
  else "In Remission"

/-- A concrete Active session as start creates it. -/
def demoS1 : SessionState :=
  { status := .active, patient_id := "p1", language := "en",
    input_mode := "keyboard",
    transcript := [{ role := .interviewer, content := "Hello" }],
    assessment := Option.none }

/-- The session demoS1 after one successful sendMessage call. -/
def demoS2 : SessionState :=
  { demoS1 with transcript := demoS1.transcript ++
      [{ role := .patient, content := "hi" },
       { role := .interviewer, content := "ok" }] }

/-- A concrete one-symptom rating mapping with severity 1. -/
def demoSymptoms : List (String × SymptomRating) :=
  [("fatigue",
    { symptom_name := "fatigue", severity := 1, frequency := Option.none,
      key_indicators := [], additional_notes := Option.none,
      location := Option.none })]

/-- The Assessment finish assembles from demoS1 and demoSymptoms at
timestamp 5. -/
def demoAssessment : Assessment :=
  { patient_id := "p1", timestamp := 5, language := "en",
    input_mode := "keyboard", symptoms := demoSymptoms,
    mood_assessment := Option.none, conversation_notes := Option.none,
    flag_for_oncologist := false, flag_reason := Option.none,
    oncologist_notification_level := .none }

theorem ratingTriggersRed_iff (r : SymptomRating) :
    ratingTriggersRed r = true ↔
      4 ≤ r.severity ∨ ∃ f, r.frequency = some f ∧ 4 ≤ f := by
  unfold ratingTriggersRed
  cases h : r.frequency with
  | none => simp [h]
  | some f => simp [h]

theorem ratingTriggersAmber_iff (r : SymptomRating) :
    ratingTriggersAmber r = true ↔
      r.severity = 3 ∧ (r.frequency = Option.none ∨ r.frequency = some 3) := by
  unfold ratingTriggersAmber
  cases h : r.frequency with
  | none => simp [h]
  | some f => simp [h]

theorem anyRed_iff (symptoms : List (String × SymptomRating)) :
    (symptoms.any fun p => ratingTriggersRed p.2) = true ↔
      ∃ p ∈ symptoms, 4 ≤ p.2.severity ∨ ∃ f, p.2.frequency = some f ∧ 4 ≤ f := by
  simp only [List.any_eq_true, ratingTriggersRed_iff]

theorem anyAmber_iff (symptoms : List (String × SymptomRating)) :
    (symptoms.any fun p => ratingTriggersAmber p.2) = true ↔
      ∃ p ∈ symptoms, p.2.severity = 3 ∧
        (p.2.frequency = Option.none ∨ p.2.frequency = some 3) := by
  simp only [List.any_eq_true, ratingTriggersAmber_iff]

theorem notificationLevel_red_iff (symptoms : List (String × SymptomRating)) :
    notificationLevel symptoms = .red ↔
      (symptoms.any fun p => ratingTriggersRed p.2) = true := by
  unfold notificationLevel
  by_cases hR : (symptoms.any fun p => ratingTriggersRed p.2) = true
  · simp [hR]
  · by_cases hA : (symptoms.any fun p => ratingTriggersAmber p.2) = true
    · simp [hR, hA]
    · simp [hR, hA]

theorem notificationLevel_amber_iff (symptoms : List (String × SymptomRating)) :
    notificationLevel symptoms = .amber ↔
      ((symptoms.any fun p => ratingTriggersRed p.2) ≠ true ∧
       (symptoms.any fun p => ratingTriggersAmber p.2) = true) := by
  unfold notificationLevel
  by_cases hR : (symptoms.any fun p => ratingTriggersRed p.2) = true
  · simp [hR]
  · by_cases hA : (symptoms.any fun p => ratingTriggersAmber p.2) = true
    · simp [hR, hA]
    · simp [hR, hA]

theorem notificationLevel_none_iff (symptoms : List (String × SymptomRating)) :
    notificationLevel symptoms = .none ↔
      ((symptoms.any fun p => ratingTriggersRed p.2) ≠ true ∧
       (symptoms.any fun p => ratingTriggersAmber p.2) ≠ true) := by
  unfold notificationLevel
  by_cases hR : (symptoms.any fun p => ratingTriggersRed p.2) = true
  · simp [hR]
  · by_cases hA : (symptoms.any fun p => ratingTriggersAmber p.2) = true
    · simp [hR, hA]
    · simp [hR, hA]

theorem flagForOncologist_iff (symptoms : List (String × SymptomRating)) :
    flagForOncologist symptoms = true ↔
      notificationLevel symptoms = .amber ∨ notificationLevel symptoms = .red := by
  unfold flagForOncologist
  cases h : notificationLevel symptoms <;> simp [h]

/-- C1: for every symptom-identifier-to-rating mapping, NotificationPolicy
returns red exactly when some symptom has severity at least 4 or a present
frequency at least 4; amber exactly when no symptom qualifies for red and
some symptom has severity 3 with frequency absent or equal to 3; none
exactly otherwise; flag_for_oncologist is true iff the level is amber or
red; and a severity of 5 anywhere forces red. -/
theorem notification_policy_correct (symptoms : List (String × SymptomRating)) :
    (notificationLevel symptoms = .red ↔
      ∃ p ∈ symptoms, 4 ≤ p.2.severity ∨ ∃ f, p.2.frequency = some f ∧ 4 ≤ f)
    ∧ (notificationLevel symptoms = .amber ↔
      ((¬ ∃ p ∈ symptoms, 4 ≤ p.2.severity ∨ ∃ f, p.2.frequency = some f ∧ 4 ≤ f)
       ∧ ∃ p ∈ symptoms, p.2.severity = 3 ∧
           (p.2.frequency = Option.none ∨ p.2.frequency = some 3)))
    ∧ (notificationLevel symptoms = .none ↔
      ((¬ ∃ p ∈ symptoms, 4 ≤ p.2.severity ∨ ∃ f, p.2.frequency = some f ∧ 4 ≤ f)
       ∧ ¬ ∃ p ∈ symptoms, p.2.severity = 3 ∧
           (p.2.frequency = Option.none ∨ p.2.frequency = some 3)))
    ∧ (flagForOncologist symptoms = true ↔
      notificationLevel symptoms = .amber ∨ notificationLevel symptoms = .red)
    ∧ (∀ p ∈ symptoms, p.2.severity = 5 → notificationLevel symptoms = .red) := by
  refine ⟨?_, ?_, ?_, flagForOncologist_iff symptoms, ?_⟩
  · rw [notificationLevel_red_iff, anyRed_iff]
  · rw [notificationLevel_amber_iff]
    exact and_congr (not_congr (anyRed_iff symptoms)) (anyAmber_iff symptoms)
  · rw [notificationLevel_none_iff]
    constructor
    · rintro ⟨h1, h2⟩
      exact ⟨fun h => h1 ((anyRed_iff symptoms).mpr h),
             fun h => h2 ((anyAmber_iff symptoms).mpr h)⟩
    · rintro ⟨h1, h2⟩
      exact ⟨fun h => h1 ((anyRed_iff symptoms).mp h),
             fun h => h2 ((anyAmber_iff symptoms).mp h)⟩
  · intro p hp h5
    rw [notificationLevel_red_iff, List.any_eq_true]
    exact ⟨p, hp, (ratingTriggersRed_iff p.2).mpr (Or.inl (by omega))⟩

theorem sendMessage_ok_transcript (st st2 : SessionState) (text reply : String)
    (h : sendMessage st text reply = .ok st2) :
    st2.transcript = st.transcript ++
      [{ role := .patient, content := text },
       { role := .interviewer, content := reply }] := by
  unfold sendMessage at h
  split at h
  · simp at h
  · split at h
    · simp at h
    · injection h with h1
      rw [← h1]

theorem runMessages_transcript (msgs : List (String × String)) :
    ∀ st st2 : SessionState, runMessages st msgs = .ok st2 →
      ∃ tail : List Message, st2.transcript = st.transcript ++ tail ∧
        tail.length = 2 * msgs.length := by
  induction msgs with
  | nil =>
    intro st st2 h
    unfold runMessages at h
    injection h with h1
    exact ⟨[], by rw [← h1]; simp, by simp⟩
  | cons m rest ih =>
    intro st st2 h
    unfold runMessages at h
    split at h
    · rename_i st1 hsend
      obtain ⟨tail, htr, hlen⟩ := ih st1 st2 h
      refine ⟨[{ role := .patient, content := m.1 },
               { role := .interviewer, content := m.2 }] ++ tail, ?_, ?_⟩
      · rw [htr, sendMessage_ok_transcript st st1 m.1 m.2 hsend, List.append_assoc]
      · simp [hlen]
        omega
    · simp at h

/-- C2: for every Active session created by start and every sequence of N
successful sendMessage calls, the transcript holds exactly 1 + 2N
messages: start appends exactly one interviewer message (so the first
transcript message is role interviewer), and each successful sendMessage
appends exactly one patient message followed by one interviewer message. -/
theorem transcript_length_invariant (st0 s1 sN : SessionState)
    (pid lang mode opening : String) (msgs : List (String × String))
    (hstart : start st0 pid lang mode opening = .ok s1)
    (hrun : runMessages s1 msgs = .ok sN) :
    s1.transcript = [{ role := .interviewer, content := opening }]
    ∧ sN.transcript.length = 1 + 2 * msgs.length
    ∧ sN.transcript.head? = some { role := .interviewer, content := opening }
    ∧ (∀ st st2 : SessionState, ∀ t r : String, sendMessage st t r = .ok st2 →
        st2.transcript = st.transcript ++
          [{ role := .patient, content := t },
           { role := .interviewer, content := r }]) := by
  have hs1 : s1.transcript = [{ role := .interviewer, content := opening }] := by
    unfold start at hstart
    split at hstart
    · simp at hstart
    · injection hstart with h1
      rw [← h1]
  obtain ⟨tail, htr, hlen⟩ := runMessages_transcript msgs s1 sN hrun
  refine ⟨hs1, ?_, ?_, fun st st2 t r h => sendMessage_ok_transcript st st2 t r h⟩
  · rw [htr, hs1]
    simp [hlen]
    omega
  · rw [htr, hs1]
    rfl

theorem transcript_length_invariant_witness :
    demoS1.transcript = [{ role := .interviewer, content := "Hello" }]
    ∧ demoS2.transcript.length = 1 + 2 * [(("hi" : String), ("ok" : String))].length
    ∧ demoS2.transcript.head? = some { role := .interviewer, content := "Hello" }
    ∧ (∀ st st2 : SessionState, ∀ t r : String, sendMessage st t r = .ok st2 →
        st2.transcript = st.transcript ++
          [{ role := .patient, content := t },
           { role := .interviewer, content := r }]) :=
  transcript_length_invariant emptySession demoS1 demoS2 "p1" "en" "keyboard"
    "Hello" [("hi", "ok")] rfl rfl

/-- C4: while a session is Active, start always fails with InvalidState
and the existing session state — status, patient_id, language, input_mode,
transcript and stored assessment alike — is left completely unchanged; the
second start is rejected, never queued. -/
theorem start_while_active_rejected (st : SessionState)
    (h : st.status = .active) (pid lang mode opening : String) :
    start st pid lang mode opening = .error .invalidState
    ∧ applyStart st pid lang mode opening = st := by
  have hs : start st pid lang mode opening = .error .invalidState := by
    unfold start
    rw [if_pos h]
  refine ⟨hs, ?_⟩
  unfold applyStart
  rw [hs]

theorem start_while_active_rejected_witness :
    start demoS1 "p2" "zh" "speech" "Hi" = .error .invalidState
    ∧ applyStart demoS1 "p2" "zh" "speech" "Hi" = demoS1 :=
  start_while_active_rejected demoS1 rfl "p2" "zh" "speech" "Hi"

/-- C8: sendMessage fails with InvalidState whenever no session is Active,
fails with InvalidInput whenever the session is Active and the text is
empty after trimming, and on every failure appends nothing: the session
state, transcript included, is unchanged. -/
theorem sendMessage_error_cases (st : SessionState) (text reply : String) :
    (st.status ≠ .active → sendMessage st text reply = .error .invalidState)
    ∧ (st.status = .active → blankAfterTrim text = true →
        sendMessage st text reply = .error .invalidInput)
    ∧ (∀ e : SessionError, sendMessage st text reply = .error e →
        applySend st text reply = st) := by
  refine ⟨?_, ?_, ?_⟩
  · intro h
    unfold sendMessage
    rw [if_pos h]
  · intro hact hblank
    unfold sendMessage
    rw [if_neg (by simp [hact]), if_pos hblank]
  · intro e he
    unfold applySend
    rw [he]

/-- C9: cancel on an Active session never touches the
AssessmentRepository — the stored artifacts after cancelOp are exactly
those before — produces no Assessment, and transitions through Cancelled
immediately to the NotStarted empty session; cancel with no Active session
fails with InvalidState. -/
theorem cancel_never_saves (st : SessionState) (repo : AssessmentRepository) :
    (st.status = .active →
      cancel st = .ok ({ st with status := .cancelled }, emptySession)
      ∧ cancelOp st repo = .ok (emptySession, repo)
      ∧ emptySession.status = .notStarted
      ∧ emptySession.assessment = Option.none)
    ∧ (st.status ≠ .active → cancelOp st repo = .error .invalidState)
    ∧ (∀ out : SessionState × AssessmentRepository,
        cancelOp st repo = .ok out →
          out.2 = repo ∧ out.2.listNames = repo.listNames) := by
  refine ⟨?_, ?_, ?_⟩
  · intro h
    have hc : cancel st = .ok ({ st with status := .cancelled }, emptySession) := by
      unfold cancel
      rw [if_neg (by simp [h])]
    exact ⟨hc, by unfold cancelOp; rw [hc], rfl, rfl⟩
  · intro h
    have hc : cancel st = .error .invalidState := by
      unfold cancel
      rw [if_pos h]
    unfold cancelOp
    rw [hc]
  · intro out hout
    unfold cancelOp at hout
    split at hout
    · injection hout with h1
      rw [← h1]
      exact ⟨rfl, rfl⟩
    · simp at hout

theorem fetch_notFound_iff (repo : AssessmentRepository) (name : String) :
    repo.fetch name = .error .notFound ↔ name ∉ repo.listNames := by
  unfold AssessmentRepository.fetch AssessmentRepository.listNames
  cases hfind : repo.artifacts.find? (fun p => p.1 == name) with
  | none =>
    simp only [List.find?_eq_none, beq_iff_eq] at hfind
    simp only [List.mem_map]
    constructor
    · rintro - ⟨p, hp, hname⟩
      exact hfind p hp hname
    · intro h
      trivial
  | some p =>
    have hp := List.find?_some hfind
    have hmem := List.mem_of_find?_eq_some hfind
    simp only [beq_iff_eq] at hp
    simp only [List.mem_map]
    constructor
    · intro h
      simp at h
    · intro h
      exact absurd ⟨p, hmem, hp⟩ h

theorem save_fetch_roundtrip (repo repo2 : AssessmentRepository) (a : Assessment)
    (hsave : repo.save a = .ok repo2) :
    repo2.fetch (artifactName a) = .ok a := by
  unfold AssessmentRepository.save at hsave
  split at hsave
  · simp at hsave
  · injection hsave with h1
    rw [← h1]
    unfold AssessmentRepository.fetch
    simp [List.find?]

/-- C5: for every session finished via finish, fetching the saved artifact
by its derived name returns an Assessment structurally equal to the one
finish produced (save followed by get is a round-trip), the Finished
session exposes that same Assessment, and get fails with NotFound exactly
when the name corresponds to no stored artifact. -/
theorem finish_roundtrip (st st2 : SessionState) (repo repo2 : AssessmentRepository)
    (a : Assessment) (symptoms : List (String × SymptomRating)) (timestamp : Nat)
    (mood notes : Option String)
    (hfin : finish st repo symptoms timestamp mood notes = .ok (st2, repo2, a)) :
    repo2.fetch (artifactName a) = .ok a
    ∧ st2.assessment = some a
    ∧ (∀ (r : AssessmentRepository) (name : String),
        r.fetch name = .error .notFound ↔ name ∉ r.listNames) := by
  unfold finish at hfin
  split at hfin
  · simp at hfin
  · dsimp only [] at hfin
    split at hfin
    · rename_i repo' hsave
      injection hfin with h1
      injection h1 with h2 h3
      injection h3 with h4 h5
      subst h2
      subst h4
      subst h5
      exact ⟨save_fetch_roundtrip repo repo' _ hsave, rfl,
             fun r name => fetch_notFound_iff r name⟩
    · simp at hfin

/-- The session demoS1 once finished with demoSymptoms at timestamp 5. -/
def demoFinished : SessionState :=
  { demoS1 with status := .finished, assessment := some demoAssessment }

/-- The repository holding exactly the artifact of demoAssessment. -/
def demoRepo : AssessmentRepository :=
  { artifacts := [(artifactName demoAssessment, demoAssessment)] }

theorem finish_roundtrip_witness :
    demoRepo.fetch (artifactName demoAssessment) = .ok demoAssessment
    ∧ demoFinished.assessment = some demoAssessment
    ∧ (∀ (r : AssessmentRepository) (name : String),
        r.fetch name = .error .notFound ↔ name ∉ r.listNames) :=
  finish_roundtrip demoS1 demoFinished ⟨[]⟩ demoRepo demoAssessment demoSymptoms 5
    Option.none Option.none rfl

theorem validateRating_error_iff (r : RawRating) :
    validateRating r = .error .extractionError ↔ badRaw r = true := by
  rcases r with ⟨name, sev, freq, ki, notes, loc⟩
  cases name with
  | none => simp [validateRating, badRaw]
  | some n =>
    cases sev with
    | absent => simp [validateRating, badRaw]
    | nonIntField => simp [validateRating, badRaw]
    | intField s =>
      by_cases hs : s < 1 ∨ 5 < s
      · rcases hs with hs' | hs' <;> simp [validateRating, badRaw, hs']
      · have h1 : ¬ s < 1 := fun hx => hs (Or.inl hx)
        have h2 : ¬ 5 < s := fun hx => hs (Or.inr hx)
        cases freq with
        | absent => simp [validateRating, badRaw, hs, h1, h2]
        | nonIntField => simp [validateRating, badRaw, hs, h1, h2]
        | intField f =>
          by_cases hax : noFrequencyAxis n = true
          · simp [validateRating, badRaw, hs, h1, h2, hax]
          · by_cases hf : f < 1 ∨ 5 < f
            · rcases hf with hf' | hf' <;>
                simp [validateRating, badRaw, hs, h1, h2, hax, hf']
            · have h3 : ¬ f < 1 := fun hx => hf (Or.inl hx)
              have h4 : ¬ 5 < f := fun hx => hf (Or.inr hx)
              simp [validateRating, badRaw, hs, hf, h1, h2, h3, h4, hax]

theorem validateRating_error_kind (r : RawRating) (e : SessionError)
    (h : validateRating r = .error e) : e = .extractionError := by
  rcases r with ⟨name, sev, freq, ki, notes, loc⟩
  cases name with
  | none =>
    simp [validateRating] at h
    exact h.symm
  | some n =>
    cases sev with
    | absent =>
      simp [validateRating] at h
      exact h.symm
    | nonIntField =>
      simp [validateRating] at h
      exact h.symm
    | intField s =>
      cases freq with
      | absent =>
        dsimp only [validateRating] at h
        split at h
        · injection h with h1
          exact h1.symm
        · simp at h
      | nonIntField =>
        dsimp only [validateRating] at h
        split at h
        · injection h with h1
          exact h1.symm
        · injection h with h1
          exact h1.symm
      | intField f =>
        dsimp only [validateRating] at h
        split at h
        · injection h with h1
          exact h1.symm
        · split at h
          · injection h with h1
            exact h1.symm
          · split at h
            · injection h with h1
              exact h1.symm
            · simp at h

theorem validateRating_ok_inv (r : RawRating) (k : String) (sr : SymptomRating)
    (h : validateRating r = .ok (k, sr)) :
    (noFrequencyAxis sr.symptom_name = true → sr.frequency = Option.none)
    ∧ 1 ≤ sr.severity ∧ sr.severity ≤ 5
    ∧ (∀ f, sr.frequency = some f → 1 ≤ f ∧ f ≤ 5) := by
  rcases r with ⟨name, sev, freq, ki, notes, loc⟩
  cases name with
  | none => simp [validateRating] at h
  | some n =>
    cases sev with
    | absent => simp [validateRating] at h
    | nonIntField => simp [validateRating] at h
    | intField s =>
      cases freq with
      | nonIntField =>
        dsimp only [validateRating] at h
        split at h
        · simp at h
        · simp at h
      | absent =>
        dsimp only [validateRating] at h
        split at h
        · simp at h
        · rename_i hs
          injection h with h1
          injection h1 with hk hsr
          subst hsr
          dsimp only []
          refine ⟨fun _ => rfl, by omega, by omega, ?_⟩
          intro f hf
          simp at hf
      | intField f =>
        dsimp only [validateRating] at h
        split at h
        · simp at h
        · rename_i hs
          split at h
          · simp at h
          · split at h
            · simp at h
            · rename_i hax hf
              injection h with h1
              injection h1 with hk hsr
              subst hsr
              dsimp only []
              refine ⟨?_, by omega, by omega, ?_⟩
              · intro hcontra
                exact absurd hcontra hax
              · intro g hg
                injection hg with hg1
                omega

theorem extractRatings_ok_inv (rs : List RawRating) :
    ∀ out, extractRatings rs = .ok out → ∀ e ∈ out,
      (noFrequencyAxis e.2.symptom_name = true → e.2.frequency = Option.none)
      ∧ 1 ≤ e.2.severity ∧ e.2.severity ≤ 5
      ∧ (∀ f, e.2.frequency = some f → 1 ≤ f ∧ f ≤ 5) := by
  induction rs with
  | nil =>
    intro out h e he
    unfold extractRatings at h
    injection h with h1
    rw [← h1] at he
    simp at he
  | cons r rest ih =>
    intro out h e he
    unfold extractRatings at h
    cases hval : validateRating r with
    | error err =>
      rw [hval] at h
      simp at h
    | ok entry =>
      rw [hval] at h
      cases hrest : extractRatings rest with
      | error err =>
        rw [hrest] at h
        simp at h
      | ok entries =>
        rw [hrest] at h
        simp only [Except.ok.injEq] at h
        rw [← h] at he
        rcases List.mem_cons.mp he with he1 | he2
        · subst he1
          exact validateRating_ok_inv r e.1 e.2 (by rw [hval])
        · exact ih entries hrest e he2

theorem extractRatings_error_of_bad (rs : List RawRating) :
    (∃ r ∈ rs, badRaw r = true) → extractRatings rs = .error .extractionError := by
  induction rs with
  | nil =>
    rintro ⟨r, hr, -⟩
    simp at hr
  | cons r rest ih =>
    rintro ⟨r0, hr0, hbad⟩
    unfold extractRatings
    rcases List.mem_cons.mp hr0 with h1 | h2
    · rw [h1] at hbad
      rw [(validateRating_error_iff r).mpr hbad]
    · cases hv : validateRating r with
      | error err =>
        have he := validateRating_error_kind r err hv
        subst he
        rfl
      | ok entry =>
        rw [ih ⟨r0, h2, hbad⟩]


/-- C6: in every successfully extracted result the frequency field is
omitted for the symptoms with no frequency axis (fatigue and appetite) and
all ratings are integers in 1..5; and the SymptomExtractor fails with
ExtractionError exactly on a raw entry with a missing symptom name, a
missing or non-integer severity, an out-of-range severity, a non-integer
frequency, a frequency present for fatigue or appetite, or an out-of-range
frequency — and the whole extraction fails with ExtractionError whenever
the raw output contains such an entry. -/
theorem extractor_validation (rs : List RawRating) :
    (∀ out, extractRatings rs = .ok out → ∀ e ∈ out,
        (noFrequencyAxis e.2.symptom_name = true → e.2.frequency = Option.none)
        ∧ 1 ≤ e.2.severity ∧ e.2.severity ≤ 5
        ∧ (∀ f, e.2.frequency = some f → 1 ≤ f ∧ f ≤ 5))
    ∧ (∀ r : RawRating, validateRating r = .error .extractionError ↔ badRaw r = true)
    ∧ ((∃ r ∈ rs, badRaw r = true) → extractRatings rs = .error .extractionError) :=
  ⟨extractRatings_ok_inv rs, fun r => validateRating_error_iff r,
   extractRatings_error_of_bad rs⟩

theorem string_append_cancel_left (a : String) :
    ∀ b c : String, a ++ b = a ++ c → b = c := by
  intro b c h
  cases a with
  | mk la =>
    cases b with
    | mk lb =>
      cases c with
      | mk lc =>
        have hd : la ++ lb = la ++ lc := congrArg String.data h
        exact congrArg String.mk (List.append_cancel_left hd)

/-- C7: discomfort reported at two distinct body locations extracts to two
separate SymptomRating entries keyed by the distinct composite identifiers
discomfort:location, never merged into one entry. -/
theorem discomfort_locations_never_merged (loc1 loc2 : String) (s1 f1 s2 f2 : Int)
    (hloc : loc1 ≠ loc2)
    (hs1a : 1 ≤ s1) (hs1b : s1 ≤ 5) (hf1a : 1 ≤ f1) (hf1b : f1 ≤ 5)
    (hs2a : 1 ≤ s2) (hs2b : s2 ≤ 5) (hf2a : 1 ≤ f2) (hf2b : f2 ≤ 5) :
    extractRatings [discomfortRaw s1 f1 loc1, discomfortRaw s2 f2 loc2] =
      .ok [("discomfort" ++ ":" ++ loc1,
            { symptom_name := "discomfort", severity := s1.toNat,
              frequency := some f1.toNat, key_indicators := [],
              additional_notes := Option.none, location := some loc1 }),
           ("discomfort" ++ ":" ++ loc2,
            { symptom_name := "discomfort", severity := s2.toNat,
              frequency := some f2.toNat, key_indicators := [],
              additional_notes := Option.none, location := some loc2 })]
    ∧ ("discomfort" ++ ":" ++ loc1 : String) ≠ "discomfort" ++ ":" ++ loc2 := by
  constructor
  · have h1 : ¬(s1 < 1 ∨ 5 < s1) := by omega
    have h2 : ¬(f1 < 1 ∨ 5 < f1) := by omega
    have h3 : ¬(s2 < 1 ∨ 5 < s2) := by omega
    have h4 : ¬(f2 < 1 ∨ 5 < f2) := by omega
    have hax : noFrequencyAxis "discomfort" = false := by decide
    simp [extractRatings, validateRating, discomfortRaw, ratingKey,
          hax, h1, h2, h3, h4]
  · intro h
    exact hloc (string_append_cancel_left ("discomfort" ++ ":") loc1 loc2 h)

theorem discomfort_locations_never_merged_witness :
    extractRatings [discomfortRaw 2 2 "back", discomfortRaw 2 2 "knee"] =
      .ok [("discomfort" ++ ":" ++ "back",
            { symptom_name := "discomfort", severity := Int.toNat 2,
              frequency := some (Int.toNat 2), key_indicators := [],
              additional_notes := Option.none, location := some "back" }),
           ("discomfort" ++ ":" ++ "knee",
            { symptom_name := "discomfort", severity := Int.toNat 2,
              frequency := some (Int.toNat 2), key_indicators := [],
              additional_notes := Option.none, location := some "knee" })]
    ∧ ("discomfort" ++ ":" ++ "back" : String) ≠ "discomfort" ++ ":" ++ "knee" :=
  discomfort_locations_never_merged "back" "knee" 2 2 2 2 (by decide)
    (by omega) (by omega) (by omega) (by omega)
    (by omega) (by omega) (by omega) (by omega)

/-- C3: every persisted Assessment artifact is a self-describing
structured record holding exactly the ten fields of the Assessment
entity — patient_id, timestamp, language, input_mode, the symptoms
mapping with its severity and frequency ratings, mood_assessment,
conversation_notes, flag_for_oncologist, flag_reason and
oncologist_notification_level — under exactly those field names, no
duplicates among them, with each field holding the corresponding value of
the Assessment. -/
theorem persisted_artifact_fields (a : Assessment) :
    (serializeAssessment a).map Prod.fst = assessmentFieldNames
    ∧ assessmentFieldNames =
        ["patient_id", "timestamp", "language", "input_mode", "symptoms",
         "mood_assessment", "conversation_notes", "flag_for_oncologist",
         "flag_reason", "oncologist_notification_level"]
    ∧ assessmentFieldNames.Nodup
    ∧ (serializeAssessment a).lookup "patient_id" = some (.jstr a.patient_id)
    ∧ (serializeAssessment a).lookup "symptoms" =
        some (.jobj (a.symptoms.map (fun p => (p.1, serializeRating p.2))))
    ∧ (serializeAssessment a).lookup "flag_for_oncologist" =
        some (.jbool a.flag_for_oncologist)
    ∧ (serializeAssessment a).lookup "oncologist_notification_level" =
        some (.jstr (levelName a.oncologist_notification_level)) :=
  ⟨rfl, rfl, by decide, rfl, rfl, rfl, rfl⟩

/-- C10: the results viewer reads a treatment_status field that the
Assessment entity does not list, and displays In Treatment exactly when
that field equals undergoing_treatment, displaying In Remission for every
other value, including when the field is absent. -/
theorem treatment_status_display (ts : Option String) :
    "treatment_status" ∉ assessmentFieldNames
    ∧ (treatmentStatusDisplay ts = "In Treatment" ↔
        ts = some "undergoing_treatment")
    ∧ (ts ≠ some "undergoing_treatment" →
        treatmentStatusDisplay ts = "In Remission")
    ∧ treatmentStatusDisplay Option.none = "In Remission" := by
  refine ⟨by decide, ?_, ?_, rfl⟩
  · constructor
    · intro hdisp
      by_contra hne
      unfold treatmentStatusDisplay at hdisp
      rw [if_neg (by simp [hne])] at hdisp
      exact absurd hdisp (by decide)
    · intro h
      unfold treatmentStatusDisplay
      rw [if_pos (by simp [h])]
  · intro h
    unfold treatmentStatusDisplay
    rw [if_neg (by simp [h])]
